import Mathlib

/-!
Shallow embedding of `src/index.js` (the `GrattisEvent` durable event
queue class) and proofs about it.

The source file defines a class with process-local state
(`collection`, `isRun`), a producer method `send`, a poller
`getItems` that installs a `setInterval` callback, and a deletion
method `removeEvent`.  Stateful methods are embedded as explicit
state-passing functions; JavaScript exceptions are embedded as
`Except String`; the MongoDB store is embedded as a list of records,
with its `find`/`sort`/`limit` pipeline as filter / insertion sort /
take, per the storage interface the code relies on.
-/

/-- A JavaScript value as it can occur in an event payload: a string,
a number, an already-constructed ObjectId instance (the store's native
reference type, carrying its 24-hex-character text), a nested plain
object, a boolean, or null. -/
inductive JsValue where
  | str (s : String)
  | num (n : Int)
  | objectId (hex : String)
  | obj (fields : List (String × JsValue))
  | bool (b : Bool)
  | null

/-- Is `c` one of `0-9 a-f A-F`? -/
def isHexChar (c : Char) : Bool :=
  (('0' ≤ c) && (c ≤ '9')) || (('a' ≤ c) && (c ≤ 'f')) || (('A' ≤ c) && (c ≤ 'F'))

/-- The regular-expression test `^[0-9a-fA-F]{24}$` applied to a string,
as `str.match` performs it on a string receiver. -/
def matchHex24 (s : String) : Bool :=
  s.length == 24 && s.data.all isHexChar

/-- Function `isObjectId` (src/index.js:4-6): `str.match(/^[0-9a-fA-F]{24}$/)`.
On a string receiver it is the regular-expression test; on every
non-string value the property access `val.match` yields something that
is not a function, so the call throws a TypeError. -/
def isObjectId (v : JsValue) : Except String Bool :=
  match v with
  | .str s => .ok (matchHex24 s)
  | _ => .error "TypeError: str.match is not a function"

/-- The body of the payload-normalization loop in `send`
(src/index.js:57-65).  When `typeof val === 'string'` the callback
returns at once, leaving the string untouched; otherwise it evaluates
`isObjectId(val)`, which calls `val.match` on a non-string value and
therefore throws a TypeError, aborting the `forEach`.  Consequently the
assignment `value[key] = new ObjectId(val)` on line 63 is unreachable
(it would require `isObjectId` to return truthily on a non-string),
which the `.map` over the always-erroring `isObjectId` reflects. -/
def normalizeValue (v : JsValue) : Except String JsValue :=
  match v with
  | .str _ => .ok v
  | _ => (isObjectId v).map fun _ => v

/-- The whole `Object.keys(value).forEach(...)` loop in `send`
(src/index.js:57-65): each top-level value is passed through
`normalizeValue`; a thrown TypeError propagates out of `forEach`,
aborting `send` before the insert. -/
def normalizePayload (value : List (String × JsValue)) :
    Except String (List (String × JsValue)) :=
  value.mapM fun kv => (normalizeValue kv.2).map fun v => (kv.1, v)

/-- One persisted event document, as `send` writes it
(src/index.js:67-73): the store-assigned `_id`, the payload `value`,
the scheduled time `date` (milliseconds since epoch, `Date.now()`
style), and the two processing flags. -/
structure EventRecord where
  _id : String
  value : List (String × JsValue)
  date : Int
  isWork : Bool
  isDone : Bool

/-- The process-local mutable fields of the `GrattisEvent` class that
the claims depend on: whether `this.collection` has been initialized by
`connect` (src/index.js:39-44), and the single-flight flag
`this.isRun` (src/index.js:21). -/
structure GrattisEvent where
  collectionConnected : Bool
  isRun : Bool

/-- Method `send` (src/index.js:52-74).  If `this.collection` is not yet set,
`connect` is awaited first (lazy connection).  The payload is then
normalized in place; a TypeError thrown by the loop propagates to the
caller and the insert never runs.  Otherwise `insert` appends one new
document with the normalized payload, the given `date` and the flags
`isWork: false`, `isDone: false`.  The JS parameter default
`date = Date.now()` is resolved at the call boundary, so the call time
is passed here explicitly; `newId` is the identifier the store assigns
to the inserted document. -/
def send (g : GrattisEvent) (db : List EventRecord) (newId : String)
    (value : List (String × JsValue)) (date : Int) :
    GrattisEvent × Except String (List EventRecord) :=
  (if g.collectionConnected then g else { g with collectionConnected := true },
   match normalizePayload value with
   | .error e => .error e
   | .ok value1 =>
       .ok (db ++ [{ _id := newId, value := value1, date := date,
                     isWork := false, isDone := false }]))

/-- The `find` filter of the poll query (src/index.js:98-105):
`date < Date.now()`, `isWork: false`, `isDone: false`.  Note the
comparison is MongoDB `$lt`, i.e. strict. -/
def dueFilter (now : Int) (r : EventRecord) : Bool :=
  decide (r.date < now) && r.isWork == false && r.isDone == false

/-- Comparison used by `.sort({ date: 1 })`: ascending by `date`. -/
def dateLE (a b : EventRecord) : Prop := a.date ≤ b.date

instance : DecidableRel dateLE := fun a b => Int.decLe a.date b.date

instance : IsTotal EventRecord dateLE := ⟨fun a b => Int.le_total a.date b.date⟩

instance : IsTrans EventRecord dateLE := ⟨fun _ _ _ h1 h2 => le_trans h1 h2⟩

/-- The full query pipeline of the poll tick (src/index.js:98-105):
`collection.find(filter).sort({ date: 1 }).limit(limit).toArray()`,
embedded as filter, then a sort ascending by `date`, then a prefix of
length `limit`. -/
def findDue (db : List EventRecord) (now : Int) (limit : Nat) : List EventRecord :=
  (List.insertionSort dateLE (db.filter (dueFilter now))).take limit

/-- The observable outcome of one firing of the `setInterval` callback
installed by `getItems` (src/index.js:90-118). -/
structure TickResult where
  /-- Value of `this.isRun` after the callback settles. -/
  isRun : Bool
  /-- Whether a `find` query was issued to the store. -/
  queried : Bool
  /-- The batch passed to `cb`, when `cb` was invoked. -/
  invoked : Option (List EventRecord)
  /-- Messages written by `console.log(err)` (src/index.js:114). -/
  logged : List String
  /-- An exception escaping the callback; the try/catch spanning the
  whole body (src/index.js:91-117) never rethrows, so every branch
  below yields `none`. -/
  thrown : Option String

/-- One firing of the interval callback of `getItems`
(src/index.js:90-118), for the guard value `isRun` at entry, the store
contents `db`, the clock reading `Date.now() = now`, the batch `limit`,
a possible store failure of the `find` call (`queryError`), and the
handler behaviour `cb`.  Branches, in source order:
line 93 — guard set: return null, nothing happens;
line 95 — set `this.isRun = true`;
lines 98-105 — run the query (a store error jumps to the catch, which
logs it and clears the guard, lines 113-117);
line 107 — empty result: return null, leaving `isRun` still `true`;
line 110 — invoke `cb(events)` (a thrown handler error jumps to the
catch, which logs it and clears the guard);
line 112 — clear the guard after a successful handler run.
The JS binds the query result once as `events`; the embedding is pure,
so the recurring expression `findDue db now limit` denotes that one
result. -/
def tick (isRun : Bool) (db : List EventRecord) (now : Int) (limit : Nat)
    (queryError : Option String)
    (cb : List EventRecord → Except String Unit) : TickResult :=
  if isRun then
    { isRun := true, queried := false, invoked := none, logged := [], thrown := none }
  else
    match queryError with
    | some e =>
        { isRun := false, queried := true, invoked := none, logged := [e], thrown := none }
    | none =>
        if (findDue db now limit).isEmpty then
          { isRun := true, queried := true, invoked := none, logged := [], thrown := none }
        else
          match cb (findDue db now limit) with
          | .ok _ =>
              { isRun := false, queried := true, invoked := some (findDue db now limit),
                logged := [], thrown := none }
          | .error e =>
              { isRun := false, queried := true, invoked := some (findDue db now limit),
                logged := [e], thrown := none }

/-- Store operation `deleteOne` on the filter by `_id`: removes the first (hence, ids
being unique, the only) document with that id; removing nothing is not
an error. -/
def deleteOneById (db : List EventRecord) (id : String) : List EventRecord :=
  match db with
  | [] => []
  | r :: rs => if r._id == id then rs else r :: deleteOneById rs id

/-- Validity of `new ObjectId(eventId)` for a string argument.
Modelled from the spec: the store's native reference type is "an opaque
24-hex-character identifier type" (§6), so construction from a string
succeeds exactly for strings matching `^[0-9a-fA-F]{24}$` and throws a
BSONError otherwise; the `mongodb` package supplying `ObjectId` is an
external collaborator, not part of this repository. -/
def objectIdFromString (s : String) : Except String String :=
  if matchHex24 s then .ok s
  else .error "BSONError: input must be a 24 character hex string"

/-- Method `removeEvent` (src/index.js:126-130).  Unlike `send` and
`getItems` there is no `if (!this.collection) await this.connect()`
guard: the member access `this.collection.deleteOne` is evaluated
first, so on an unconnected instance it dereferences `null` and throws
a TypeError before `new ObjectId(eventId)` is even evaluated; it never
connects, so the state is returned unchanged on every path.  With a
connected collection, `new ObjectId(eventId)` may throw a BSONError for
a malformed id; otherwise `deleteOne` removes at most one matching
document and succeeds regardless of whether anything matched. -/
def removeEvent (g : GrattisEvent) (db : List EventRecord) (eventId : String) :
    GrattisEvent × Except String (List EventRecord) :=
  if g.collectionConnected then
    match objectIdFromString eventId with
    | .error e => (g, .error e)
    | .ok oid => (g, .ok (deleteOneById db oid))
  else
    (g, .error "TypeError: Cannot read properties of null (reading deleteOne)")

/-! ## Helper lemmas -/

/-- The query result is sorted ascending by `date`: insertion sort
produces a sorted list and a `take` prefix of a sorted list is
sorted. -/
theorem sorted_findDue (db : List EventRecord) (now : Int) (limit : Nat) :
    List.Sorted dateLE (findDue db now limit) :=
  List.Pairwise.sublist (List.take_sublist limit _) (List.sorted_insertionSort dateLE _)

/-- Whatever branch of a tick delivers a batch, that batch is exactly
the query result. -/
theorem tick_invoked_eq (isRun : Bool) (db : List EventRecord) (now : Int)
    (limit : Nat) (queryError : Option String)
    (cb : List EventRecord → Except String Unit) (batch : List EventRecord)
    (h : (tick isRun db now limit queryError cb).invoked = some batch) :
    batch = findDue db now limit := by
  unfold tick at h
  split at h
  · simp at h
  · split at h
    · simp at h
    · split at h
      · simp at h
      · split at h <;> simp_all

/-- Deleting an id that no stored record carries changes nothing. -/
theorem deleteOneById_of_forall_ne (db : List EventRecord) (id : String)
    (h : ∀ r ∈ db, r._id ≠ id) : deleteOneById db id = db := by
  induction db with
  | nil => rfl
  | cons r rs ih =>
    have h1 : (r._id == id) = false :=
      beq_eq_false_iff_ne.mpr (h r (List.mem_cons_self r rs))
    simp [deleteOneById, h1, ih fun x hx => h x (List.mem_cons_of_mem r hx)]

/-! ## Concrete records used by witnesses and counterexamples -/

/-- A concrete record that is due at time 100. -/
def recDue : EventRecord :=
  { _id := "aaaaaaaaaaa1aaaaaaaaaaa1", value := [], date := 50,
    isWork := false, isDone := false }

/-- A later record, also due at time 100. -/
def recDue2 : EventRecord :=
  { _id := "aaaaaaaaaaa2aaaaaaaaaaa2", value := [], date := 70,
    isWork := false, isDone := false }

/-- A record scheduled exactly at the observation instant 100. -/
def recAtNow : EventRecord :=
  { _id := "cccccccccccccccccccccccc", value := [], date := 100,
    isWork := false, isDone := false }

/-- The example payload reference string of spec property P5. -/
def refHex : String := "507f1f77bcf86cd799439011"

/-! ## Claims -/

/-- C1: on an empty query result the interval callback does return
without invoking the handler, but it returns before `this.isRun` is
reset (the early return at src/index.js:107 skips line 112), so the
in-flight guard stays set and every subsequent tick is skipped.  The
guard-clearing part of the claim fails on the code. -/
theorem C1_empty_result_leaves_guard_set :
    (tick false [] 100 10000 none fun _ => .ok ()).invoked = none ∧
    (tick false [] 100 10000 none fun _ => .ok ()).isRun = true ∧
    (tick true [] 160100 10000 none fun _ => .ok ()).queried = false ∧
    (tick true [] 160100 10000 none fun _ => .ok ()).invoked = none :=
  ⟨rfl, rfl, rfl, rfl⟩

/-- C2: the `typeof val === 'string'` guard in `send` is inverted with
respect to the claim — a string value returns from the normalization
loop before the conversion can run, so a 24-hex-character string is
stored as a plain string, never as a native reference. -/
theorem C2_hex_string_stored_unconverted :
    matchHex24 refHex = true ∧
    (send ⟨true, false⟩ [] "bbbbbbbbbbbbbbbbbbbbbbb1"
        [("ref", .str refHex), ("note", .str "hi")] 100).2 =
      .ok [{ _id := "bbbbbbbbbbbbbbbbbbbbbbb1",
             value := [("ref", JsValue.str refHex), ("note", JsValue.str "hi")],
             date := 100, isWork := false, isDone := false }] :=
  ⟨rfl, rfl⟩

/-- C7: a payload with a non-string top-level value makes the
normalization loop call `val.match` on a non-string, so `send` throws
a TypeError before `insert` runs and no record is written; on an
all-string payload the single inserted record does carry
`isWork = false`, `isDone = false` and the supplied `date`. -/
theorem C7_nonstring_payload_aborts_insert :
    (send ⟨true, false⟩ [] "bbbbbbbbbbbbbbbbbbbbbbb2" [("n", .num 5)] 123).2 =
      .error "TypeError: str.match is not a function" ∧
    (send ⟨true, false⟩ [] "bbbbbbbbbbbbbbbbbbbbbbb2" [("a", .str "x")] 123).2 =
      .ok [{ _id := "bbbbbbbbbbbbbbbbbbbbbbb2",
             value := [("a", JsValue.str "x")],
             date := 123, isWork := false, isDone := false }] :=
  ⟨rfl, rfl⟩

/-- The due predicate exactly as claim C3 words it: `scheduledAt` (the
`date` field) less than or equal to the current time, `isWork` =
false, `isDone` = false.  Claim-side definition, kept for comparison
with the code-side `dueFilter`. -/
def claimDue (now : Int) (r : EventRecord) : Bool :=
  decide (r.date ≤ now) && r.isWork == false && r.isDone == false

/-- C3, counterexample: a record scheduled exactly at the current
instant is due under the claim's `≤` reading, but the code's `$lt`
query excludes it. -/
theorem C3_counterexample_boundary_record :
    claimDue 100 recAtNow = true ∧ findDue [recAtNow] 100 10000 = [] :=
  ⟨rfl, rfl⟩

/-- C3, amended: with the claim's `≤` corrected to the strict `<` the
code issues, and when the due set fits within the batch limit, the
query returns exactly the due records: a record is in the batch iff it
is stored, scheduled strictly before `now`, and has both flags
false. -/
theorem C3_amended_query_exact (db : List EventRecord) (now : Int) (limit : Nat)
    (r : EventRecord)
    (hlim : (db.filter (dueFilter now)).length ≤ limit) :
    r ∈ findDue db now limit ↔
      r ∈ db ∧ r.date < now ∧ r.isWork = false ∧ r.isDone = false := by
  unfold findDue
  rw [List.take_of_length_le (by simpa using hlim), List.mem_insertionSort,
    List.mem_filter]
  simp [dueFilter, and_assoc]

/-- C3, amended, witness: the amended equivalence instantiated on a
one-record store whose record is strictly earlier than `now`. -/
theorem C3_amended_query_exact_witness :
    (([recDue].filter (dueFilter 100)).length ≤ 10) ∧
    (recDue ∈ findDue [recDue] 100 10 ↔
      recDue ∈ [recDue] ∧ recDue.date < 100 ∧ recDue.isWork = false ∧
        recDue.isDone = false) :=
  ⟨by decide, C3_amended_query_exact [recDue] 100 10 recDue (by decide)⟩

/-- C4: with the in-flight guard set, a firing tick issues no query
and invokes no handler (the early return at src/index.js:93 precedes
both). -/
theorem C4_inflight_tick_skips (db : List EventRecord) (now : Int) (limit : Nat)
    (queryError : Option String) (cb : List EventRecord → Except String Unit) :
    (tick true db now limit queryError cb).queried = false ∧
    (tick true db now limit queryError cb).invoked = none :=
  ⟨rfl, rfl⟩

/-- C5: any batch a tick passes to the handler is the query result,
which the ascending sort leaves in non-decreasing `date` order; a
batch of records with distinct `scheduledAt` values is in particular
so sorted. -/
theorem C5_delivered_batch_sorted (isRun : Bool) (db : List EventRecord)
    (now : Int) (limit : Nat) (queryError : Option String)
    (cb : List EventRecord → Except String Unit) (batch : List EventRecord)
    (h : (tick isRun db now limit queryError cb).invoked = some batch) :
    List.Sorted dateLE batch := by
  rw [tick_invoked_eq isRun db now limit queryError cb batch h]
  exact sorted_findDue db now limit

/-- C5, witness: a two-record store holding its records out of order
has them delivered sorted by `date`. -/
theorem C5_delivered_batch_sorted_witness :
    List.Sorted dateLE [recDue, recDue2] :=
  C5_delivered_batch_sorted false [recDue2, recDue] 100 10 none
    (fun _ => .ok ()) [recDue, recDue2] rfl

/-- C6: an error in the poll cycle — the store failing the query, or
the handler throwing — is caught by the try/catch spanning the whole
cycle, logged via `console.log`, not rethrown, and the catch handler
clears the in-flight guard, so the next tick polls again. -/
theorem C6_cycle_errors_swallowed (db : List EventRecord) (now : Int)
    (limit : Nat) (e : String) (cb : List EventRecord → Except String Unit)
    (hcb : cb (findDue db now limit) = .error e)
    (hne : (findDue db now limit).isEmpty = false) :
    ((tick false db now limit (some e) cb).thrown = none ∧
     (tick false db now limit (some e) cb).logged = [e] ∧
     (tick false db now limit (some e) cb).isRun = false) ∧
    ((tick false db now limit none cb).thrown = none ∧
     (tick false db now limit none cb).logged = [e] ∧
     (tick false db now limit none cb).isRun = false) := by
  refine ⟨⟨rfl, rfl, rfl⟩, ?_⟩
  unfold tick
  rw [hne, hcb]
  exact ⟨rfl, rfl, rfl⟩

/-- C6, witness: the query failing with "boom", and separately the
handler throwing "boom" on a nonempty batch, are both logged and
swallowed with the guard cleared. -/
theorem C6_cycle_errors_swallowed_witness :
    ((tick false [recDue] 100 10 (some "boom") fun _ => .error "boom").thrown = none ∧
     (tick false [recDue] 100 10 (some "boom") fun _ => .error "boom").logged = ["boom"] ∧
     (tick false [recDue] 100 10 (some "boom") fun _ => .error "boom").isRun = false) ∧
    ((tick false [recDue] 100 10 none fun _ => .error "boom").thrown = none ∧
     (tick false [recDue] 100 10 none fun _ => .error "boom").logged = ["boom"] ∧
     (tick false [recDue] 100 10 none fun _ => .error "boom").isRun = false) :=
  C6_cycle_errors_swallowed [recDue] 100 10 "boom" (fun _ => .error "boom") rfl rfl

/-- C8: with an initialized collection and a well-formed id,
`removeEvent` never errors: a first delete succeeds, a repeated delete
of the same id succeeds on the resulting store, and deleting an id no
stored record carries leaves the store unchanged — all without an
error. -/
theorem C8_remove_idempotent (g : GrattisEvent) (db : List EventRecord)
    (id : String) (hconn : g.collectionConnected = true)
    (hid : matchHex24 id = true) :
    removeEvent g db id = (g, .ok (deleteOneById db id)) ∧
    removeEvent g (deleteOneById db id) id =
      (g, .ok (deleteOneById (deleteOneById db id) id)) ∧
    ((∀ r ∈ db, r._id ≠ id) → deleteOneById db id = db) := by
  refine ⟨?_, ?_, deleteOneById_of_forall_ne db id⟩ <;>
    simp [removeEvent, objectIdFromString, hconn, hid]

/-- C8, witness: deleting a well-formed id that was never inserted,
twice in a row, errors neither time. -/
theorem C8_remove_idempotent_witness :
    removeEvent ⟨true, false⟩ [] "aaaaaaaaaaaaaaaaaaaaaaaa" =
      ((⟨true, false⟩ : GrattisEvent), .ok []) :=
  (C8_remove_idempotent ⟨true, false⟩ [] "aaaaaaaaaaaaaaaaaaaaaaaa" rfl rfl).1

/-- C9: on an instance whose collection handle was never initialized,
`removeEvent` throws the null dereference (the member access
`this.collection.deleteOne` evaluates before `new ObjectId`) and
leaves the state untouched — it never connects — whereas `send` on
the same state establishes the connection first. -/
theorem C9_remove_does_not_connect (g : GrattisEvent) (db : List EventRecord)
    (id newId : String) (value : List (String × JsValue)) (date : Int)
    (h : g.collectionConnected = false) :
    (removeEvent g db id).1 = g ∧
    (removeEvent g db id).2 =
      .error "TypeError: Cannot read properties of null (reading deleteOne)" ∧
    (send g db newId value date).1.collectionConnected = true := by
  refine ⟨?_, ?_, ?_⟩ <;> simp [removeEvent, send, h]

/-- C9, witness: the contrast instantiated on a fresh, unconnected
instance. -/
theorem C9_remove_does_not_connect_witness :
    (removeEvent ⟨false, false⟩ [] "aaaaaaaaaaaaaaaaaaaaaaaa").1 =
      (⟨false, false⟩ : GrattisEvent) ∧
    (removeEvent ⟨false, false⟩ [] "aaaaaaaaaaaaaaaaaaaaaaaa").2 =
      .error "TypeError: Cannot read properties of null (reading deleteOne)" ∧
    (send ⟨false, false⟩ [] "bbbbbbbbbbbbbbbbbbbbbbb3" [] 0).1.collectionConnected
      = true :=
  C9_remove_does_not_connect ⟨false, false⟩ [] "aaaaaaaaaaaaaaaaaaaaaaaa"
    "bbbbbbbbbbbbbbbbbbbbbbb3" [] 0 rfl

/-- C10: with a connected collection, a string that is not 24
hexadecimal characters makes `new ObjectId(eventId)` throw, so
`removeEvent` raises instead of silently deleting nothing. -/
theorem C10_malformed_id_raises (g : GrattisEvent) (db : List EventRecord)
    (id : String) (hconn : g.collectionConnected = true)
    (hid : matchHex24 id = false) :
    (removeEvent g db id).2 =
      .error "BSONError: input must be a 24 character hex string" ∧
    (removeEvent g db id).1 = g := by
  refine ⟨?_, ?_⟩ <;> simp [removeEvent, objectIdFromString, hconn, hid]

/-- C10, witness: a four-character id string raises the BSONError. -/
theorem C10_malformed_id_raises_witness :
    (removeEvent ⟨true, false⟩ [] "nope").2 =
      .error "BSONError: input must be a 24 character hex string" ∧
    (removeEvent ⟨true, false⟩ [] "nope").1 = (⟨true, false⟩ : GrattisEvent) :=
  C10_malformed_id_raises ⟨true, false⟩ [] "nope" rfl rfl
